import Mathlib

/-!
Verification of the FastAPI-Tutorial-01 repository: a shallow embedding of its
three Python source files and proofs of the specified properties.

* `src/main.py` — the API Service: route handlers with FastAPI/pydantic
  parameter validation (path, query, body, header, cookie).
* `src/inspect_db.py` — the Database Inspector: a script that opens a SQLite
  file, enumerates tables and pretty-prints their contents inside a
  try/except/finally block.
* `src/verify_db.py` — the Verification Script: a sequential HTTP smoke test
  of an external items resource.

Python values decoded from JSON are modelled by `JValue`; Python truthiness by
`pyTruthy`.  Route handlers are modelled as functions from the decoded request
parts to a `Response`, with the framework validation of the constraints
declared in the source (required, ge, le, gt, min_length) performed before the
handler body, as FastAPI does.  The scripts are modelled as functions of an
environment (database contents / HTTP outcomes); printing is modelled as the
list of emitted lines or line events, and an uncaught Python exception as an
`Option String` carried in the result.
-/

set_option autoImplicit false

/-- A JSON value as decoded by Python's `json.loads`: objects become dicts
(association lists, later duplicate keys overwriting earlier ones), arrays
become lists, and scalars become `None`/bool/number/string.  Numbers are
modelled as rationals. -/
inductive JValue where
  | null
  | bool (b : Bool)
  | num (q : ℚ)
  | str (s : String)
  | arr (items : List JValue)
  | obj (fields : List (String × JValue))

/-- Python truthiness of a decoded JSON value: `None`, `False`, `0`, `""`,
`[]` and the empty dict are falsy, everything else is truthy. -/
def pyTruthy : JValue → Bool
  | .null => false
  | .bool b => b
  | .num q => q != 0
  | .str s => s != ""
  | .arr l => !l.isEmpty
  | .obj l => !l.isEmpty

/-- `d.get(k)` on a Python dict built from an association list by `json.loads`:
the LAST binding of a duplicated key wins, and a missing key gives `none`. -/
def dictGet (fields : List (String × JValue)) (k : String) : Option JValue :=
  fields.foldl (fun acc p => if p.1 == k then some p.2 else acc) none

/-! ## src/main.py — the API Service -/

/-- A structured validation error, as FastAPI reports in the body of a 422
response: which parameter failed and which declared constraint. -/
inductive FieldError where
  | missing (loc : String)
  | greaterEqual (loc : String) (bound : ℤ)
  | lessEqual (loc : String) (bound : ℤ)
  | greaterThan (loc : String) (bound : ℚ)
  | minLength (loc : String) (bound : ℕ)
  deriving DecidableEq, Repr

/-- Outcome of a request to a route: either HTTP 200 with the handler's
return value, or the framework's structured 422 validation-error response. -/
inductive Response (α : Type) where
  | ok (body : α)
  | validationError (errors : List FieldError)
  deriving DecidableEq

/-- The numeric HTTP status of a `Response`: 200 on success, 422 on a
validation error (FastAPI's standard status for request-validation failure). -/
def statusOf {α : Type} : Response α → ℕ
  | .ok _ => 200
  | .validationError _ => 422

/-- Body of the path-route response `{"data": f"Name is : {name}, age is: {age}"}`. -/
structure PathEcho where
  data : String
  deriving DecidableEq

/-- `GET /path-parameter-example/{name}/{age}` (`get_name` in `src/main.py`):
`name : str` with `min_length=1`, `age : str`; echoes both in a format string. -/
def get_name (name age : String) : Response PathEcho :=
  if 1 ≤ name.length then
    .ok ⟨"Name is : " ++ name ++ ", age is: " ++ age⟩
  else
    .validationError [.minLength "name" 1]

/-- The decoded query string of `GET /query-parameter-example`: each declared
parameter is either absent or present with a value of its declared type
(a value failing integer parsing is outside the claims considered here). -/
structure QueryRequest where
  data_type : Option String
  skip : Option ℤ
  limit : Option ℤ

/-- Body of the query-route success response: the three echoed values. -/
structure QueryEcho where
  data_type : String
  skip : ℤ
  limit : ℤ
  deriving DecidableEq

/-- Validation of `data_type: str = Query(...)`: required, no other constraint. -/
def vDataType : Option String → Except (List FieldError) String
  | none => .error [.missing "data_type"]
  | some s => .ok s

/-- Validation of `skip: int = Query(0, ge=0)`: optional with default 0,
constrained to be ≥ 0. -/
def vSkip : Option ℤ → Except (List FieldError) ℤ
  | none => .ok 0
  | some n => if 0 ≤ n then .ok n else .error [.greaterEqual "skip" 0]

/-- Validation of `limit: int = Query(10, le=100)`: optional with default 10,
constrained to be ≤ 100 (no lower bound is declared). -/
def vLimit : Option ℤ → Except (List FieldError) ℤ
  | none => .ok 10
  | some m => if m ≤ 100 then .ok m else .error [.lessEqual "limit" 100]

/-- The errors contributed by one parameter's validation. -/
def errsOf {α : Type} : Except (List FieldError) α → List FieldError
  | .error e => e
  | .ok _ => []

/-- `GET /query-parameter-example` (`get_api_data` in `src/main.py`): FastAPI
validates every declared parameter, aggregates all failures into one 422
response, and otherwise runs the handler, which echoes the three values. -/
def get_api_data (req : QueryRequest) : Response QueryEcho :=
  match vDataType req.data_type, vSkip req.skip, vLimit req.limit with
  | .ok d, .ok s, .ok l => .ok ⟨d, s, l⟩
  | r1, r2, r3 => .validationError (errsOf r1 ++ errsOf r2 ++ errsOf r3)

/-- The JSON object found under the `item` key of the body of
`GET /body-parameter-example/item`, before validation: each field of the
pydantic `Item` model is either absent or present with a value of its
declared type. -/
structure RawItem where
  name : Option String
  price : Option ℚ
  brand : Option String

/-- The pydantic model `Item` of `src/main.py`: `name : str` required,
`price : float` required with `gt=0`, `brand : Optional[str]` defaulting
to `None`.  Floats are modelled as rationals. -/
structure Item where
  name : String
  price : ℚ
  brand : Option String
  deriving DecidableEq

/-- Pydantic validation of the `Item` model: every failing field contributes
a structured error, and all errors are aggregated. -/
def validateItem (raw : RawItem) : Except (List FieldError) Item :=
  let eName : Except (List FieldError) String :=
    match raw.name with
    | none => .error [.missing "item.name"]
    | some n => .ok n
  let ePrice : Except (List FieldError) ℚ :=
    match raw.price with
    | none => .error [.missing "item.price"]
    | some p => if 0 < p then .ok p else .error [.greaterThan "item.price" 0]
  match eName, ePrice with
  | .ok n, .ok p => .ok ⟨n, p, raw.brand⟩
  | r1, r2 => .error (errsOf r1 ++ errsOf r2)

/-- `GET /body-parameter-example/item` (`create_item` in `src/main.py`): the
body under the `item` key is validated against the `Item` model; on success
the handler echoes the parsed item (as `{"item": item}`). -/
def create_item (raw : RawItem) : Response Item :=
  match validateItem raw with
  | .ok it => .ok it
  | .error errs => .validationError errs

/-- Rendering of an optional string in a JSON response: Python `None`
serialises to JSON `null`, a string to itself. -/
def optStrToJson : Option String → JValue
  | none => .null
  | some s => .str s

/-- `GET /item/example-header` (`get_item` in `src/main.py`): the optional
`User-Agent` header is echoed as `{"user_agent": value-or-null}`. -/
def get_item (user_agent : Option String) : JValue :=
  .obj [("user_agent", optStrToJson user_agent)]

/-- `GET /items/example-cookie` (`read_items` in `src/main.py`): the optional
`session_token` cookie is echoed as `{"session_token": value-or-null}`. -/
def read_items (session_token : Option String) : JValue :=
  .obj [("session_token", optStrToJson session_token)]

/-- `t` occurs verbatim inside `s`: the character list of `t` is an infix of
the character list of `s`. -/
def strContains (s t : String) : Prop :=
  t.data <:+: s.data

/-! ## src/inspect_db.py — the Database Inspector -/

/-- The behaviour of the SQLite engine on `db.db`, as observed by the
inspector: whether `sqlite3.connect` raises, what the `sqlite_master` query
yields (the table names, or a raised `sqlite3.Error`), and for each table
name what `SELECT * FROM t` yields (the column names from
`cursor.description` and the rows already rendered by `str`, or a raised
`sqlite3.Error`). -/
structure DbEnv where
  connect : Except String Unit
  listTables : Except String (List String)
  queryTable : String → Except String (List String × List (List String))

/-- A string of `n` dashes, as produced by `"-" * n`. -/
def dashes (n : ℕ) : String :=
  String.mk (List.replicate n '-')

/-- `print_table(cursor, table_name)` of `src/inspect_db.py`: prints the
table header line, runs `SELECT *`, prints `(Empty)` for an empty result
set, and otherwise prints the joined column names, a dash rule and every
row.  Returns the printed lines together with the `sqlite3.Error` raised by
the query, if any (raised after the header line is already printed, since
`print` precedes `cursor.execute`). -/
def print_table (env : DbEnv) (table_name : String) : List String × Option String :=
  let hdr := "\n--- Table: " ++ table_name ++ " ---"
  match env.queryTable table_name with
  | .error e => ([hdr], some e)
  | .ok (cols, rows) =>
    if rows.isEmpty then
      ([hdr, "(Empty)"], none)
    else
      let header := String.intercalate " | " cols
      ([hdr, header, dashes header.length] ++ rows.map (String.intercalate " | "), none)

/-- The `for table in tables:` loop of `src/inspect_db.py`: prints tables in
catalog order until a query raises, returning the printed lines and the
first raised error, if any. -/
def inspectLoop (env : DbEnv) : List String → List String × Option String
  | [] => ([], none)
  | t :: ts =>
    match print_table env t with
    | (out, some e) => (out, some e)
    | (out, none) =>
      let (out2, err2) := inspectLoop env ts
      (out ++ out2, err2)

/-- What an execution of the inspector script leaves behind: the lines
printed to the console, whether `conn.close()` was called, and the Python
exception that escaped the script uncaught, if any. -/
structure InspectResult where
  output : List String
  connClosed : Bool
  uncaught : Option String
  deriving DecidableEq

/-- The module body of `src/inspect_db.py` (its try/except/finally block).
When `sqlite3.connect` itself raises, the `except sqlite3.Error` clause
catches and logs it, but the name `conn` was never bound, so the
`if conn:` test in the `finally` clause raises a `NameError` that escapes
the script; no connection exists to close.  When `connect` succeeds, any
`sqlite3.Error` raised by a query is caught and logged and the `finally`
clause closes the bound connection, so the script exits cleanly. -/
def inspectMain (env : DbEnv) : InspectResult :=
  match env.connect with
  | .error e =>
    { output := ["An error occurred: " ++ e]
      connClosed := false
      uncaught := some "NameError: name conn is not defined" }
  | .ok _ =>
    match env.listTables with
    | .error e =>
      { output := ["An error occurred: " ++ e], connClosed := true, uncaught := none }
    | .ok tables =>
      if tables.isEmpty then
        { output := ["No tables found in database."], connClosed := true, uncaught := none }
      else
        match inspectLoop env tables with
        | (out, some e) =>
          { output := out ++ ["An error occurred: " ++ e], connClosed := true, uncaught := none }
        | (out, none) =>
          { output := out, connClosed := true, uncaught := none }

/-! ## src/verify_db.py — the Verification Script -/

/-- The transport-level outcome of one HTTP call made by `make_request`:
`urlopen` returns a response (its status, raw body text, and the JSON value
the body decodes to, or `none` when `json.loads` raises), or raises
`urllib.error.HTTPError` (an HTTP error status with a body), or raises
`urllib.error.URLError` (a transport failure with a reason). -/
inductive HttpOutcome where
  | success (status : ℕ) (rawBody : String) (parsed : Option JValue)
  | httpError (code : ℕ) (body : String)
  | urlError (reason : String)

/-- One line printed by `make_request`: a `Status: ...` line, a
`Response: ...` line (carrying the decoded value, the raw body standing as a
string when JSON decoding failed), or an `Error: ...` line with the
transport failure's reason. -/
inductive LogLine where
  | statusLine (code : ℕ)
  | responseLine (v : JValue)
  | errorLine (reason : String)

/-- The Python value bound to `json_data` in `make_request`: the decoded
JSON value, or the raw body text itself when `json.loads` raised. -/
def dataOf (rawBody : String) (parsed : Option JValue) : JValue :=
  match parsed with
  | some j => j
  | none => .str rawBody

/-- Result of `make_request`: the printed lines and the returned pair
`(status, json_data)`, each component `None`-able. -/
structure ReqResult where
  printed : List LogLine
  status : Option ℕ
  data : Option JValue

/-- `make_request` of `src/verify_db.py`: on a response, prints status and
decoded body and returns both; on `HTTPError`, prints the error status and
its body text and returns `(code, None)`; on `URLError`, prints the reason
and returns `(None, None)`. -/
def make_request : HttpOutcome → ReqResult
  | .success st rawBody parsed =>
    { printed := [.statusLine st, .responseLine (dataOf rawBody parsed)]
      status := some st
      data := some (dataOf rawBody parsed) }
  | .httpError c b =>
    { printed := [.statusLine c, .responseLine (.str b)], status := some c, data := none }
  | .urlError r =>
    { printed := [.errorLine r], status := none, data := none }

/-- `data.get("id")` in `test_create_item`: defined only when `data` is a
dict; on any other Python value the attribute access raises
`AttributeError`, modelled as the `.error` case. -/
def pyGetId : JValue → Except String (Option JValue)
  | .obj fs => .ok (dictGet fs "id")
  | _ => .error "AttributeError"

/-- `test_create_item` of `src/verify_db.py`: issues the CREATE call and
returns `data.get("id")` when the status is exactly 200 and the returned
data is truthy, `None` otherwise.  The `.error` case is the uncaught
`AttributeError` raised when the truthy data is not a dict. -/
def test_create_item (createResp : HttpOutcome) : Except String (Option JValue) :=
  let r := make_request createResp
  if r.status = some 200 then
    match r.data with
    | some d => if pyTruthy d then pyGetId d else .ok none
    | none => .ok none
  else
    .ok none

/-- One observable step of the `__main__` block of `src/verify_db.py`:
an HTTP call to a named endpoint, or the printed
`"Failed to create item, skipping other tests."` notice. -/
inductive Step where
  | create
  | readAll
  | readOne (id : JValue)
  | update (id : JValue)
  | patch (id : JValue)
  | delete (id : JValue)
  | failNotice

/-- The full sequence of steps the script performs after a CREATE that
yielded the id `v`. -/
def fullTrace (v : JValue) : List Step :=
  [.create, .readAll, .readOne v, .update v, .patch v, .delete v, .readAll]

/-- Result of running the `__main__` block: the steps performed in order and
the uncaught Python exception, if any. -/
structure RunResult where
  trace : List Step
  err : Option String

/-- The `__main__` block of `src/verify_db.py`: runs `test_create_item` and,
if it returned a truthy `item_id`, runs READ-ALL, READ-ONE, UPDATE, PATCH,
DELETE, READ-ALL in that order; otherwise prints the failure notice.  The
outcomes of the later calls never influence the sequence (their results are
ignored), so the trace is a function of the CREATE outcome alone. -/
def verifyMain (createResp : HttpOutcome) : RunResult :=
  match test_create_item createResp with
  | .error e => { trace := [.create], err := some e }
  | .ok none => { trace := [.create, .failNotice], err := none }
  | .ok (some v) =>
    if pyTruthy v then
      { trace := fullTrace v, err := none }
    else
      { trace := [.create, .failNotice], err := none }

/-- `CREATE returned success and a body containing an id`: the CREATE call
came back with HTTP status 200 and its decoded body is a JSON object whose
`id` entry is the truthy value `v`. -/
def createYieldsId (createResp : HttpOutcome) (v : JValue) : Prop :=
  ∃ rawBody parsed fs,
    createResp = .success 200 rawBody parsed ∧
    dataOf rawBody parsed = .obj fs ∧
    dictGet fs "id" = some v ∧
    pyTruthy v = true

/-- The CREATE call came back with HTTP status 200 and a truthy decoded body
that is not a JSON object, so that `data.get("id")` raises `AttributeError`. -/
def createCrashes (createResp : HttpOutcome) : Prop :=
  ∃ rawBody parsed,
    createResp = .success 200 rawBody parsed ∧
    pyTruthy (dataOf rawBody parsed) = true ∧
    ∀ fs, dataOf rawBody parsed ≠ .obj fs

/-! ## Helper lemmas -/

theorem dictGet_nil (k : String) : dictGet [] k = none := rfl

theorem dictGet_ne_nil {fs : List (String × JValue)} {k : String} {v : JValue}
    (h : dictGet fs k = some v) : fs ≠ [] := by
  rintro rfl
  simp [dictGet] at h

theorem test_create_item_of_success (st : ℕ) (rawBody : String) (parsed : Option JValue)
    (hst : st = 200) :
    test_create_item (.success st rawBody parsed) =
      (if pyTruthy (dataOf rawBody parsed) then pyGetId (dataOf rawBody parsed)
       else .ok none) := by
  subst hst
  rfl

theorem test_create_item_of_success_ne (st : ℕ) (rawBody : String) (parsed : Option JValue)
    (hst : st ≠ 200) :
    test_create_item (.success st rawBody parsed) = .ok none := by
  simp [test_create_item, make_request, hst]

theorem test_create_item_of_httpError (c : ℕ) (b : String) :
    test_create_item (.httpError c b) = .ok none := by
  by_cases h : c = 200 <;> simp [test_create_item, make_request, h]

theorem test_create_item_of_urlError (r : String) :
    test_create_item (.urlError r) = .ok none := by
  simp [test_create_item, make_request]

/-! ## Claim theorems -/

/-- C1: The claim states that on every execution of the Database Inspector —
including one in which a database-engine error is raised while opening the
connection — the error is caught and logged, the connection is released and
the process exits cleanly.  The code violates this: when `sqlite3.connect`
itself raises, the `except` clause does log the error, but `conn` was never
bound, so the `finally` clause's `if conn:` raises an uncaught `NameError`
and no connection is released.  This theorem evaluates the embedded script
at such an input. -/
theorem inspector_connect_error_escapes :
    inspectMain
      { connect := .error "unable to open database file"
        listTables := .ok []
        queryTable := fun _ => .ok ([], []) } =
      { output := ["An error occurred: unable to open database file"]
        connClosed := false
        uncaught := some "NameError: name conn is not defined" } := rfl

/-- C6: On a database with zero tables the inspector prints exactly the one
line `No tables found in database.` and exits cleanly; on a database whose
single table has zero rows it prints the table-name header and `(Empty)`,
with no column-header line and no row lines, and exits cleanly. -/
theorem inspector_empty_cases (env1 env2 : DbEnv) (t : String) (cols : List String)
    (h1c : env1.connect = .ok ())
    (h1t : env1.listTables = .ok [])
    (h2c : env2.connect = .ok ())
    (h2t : env2.listTables = .ok [t])
    (h2q : env2.queryTable t = .ok (cols, [])) :
    inspectMain env1 =
      { output := ["No tables found in database."], connClosed := true, uncaught := none } ∧
    inspectMain env2 =
      { output := ["\n--- Table: " ++ t ++ " ---", "(Empty)"], connClosed := true, uncaught := none } := by
  constructor
  · simp [inspectMain, h1c, h1t]
  · simp [inspectMain, h2c, h2t, inspectLoop, print_table, h2q]

/-- Witness for C6: the two behaviours at concrete database environments. -/
theorem inspector_empty_cases_witness :
    inspectMain
      { connect := .ok (), listTables := .ok [], queryTable := fun _ => .ok ([], []) } =
      { output := ["No tables found in database."], connClosed := true, uncaught := none } ∧
    inspectMain
      { connect := .ok (), listTables := .ok ["items"], queryTable := fun _ => .ok (["id", "name"], []) } =
      { output := ["\n--- Table: " ++ "items" ++ " ---", "(Empty)"], connClosed := true, uncaught := none } :=
  inspector_empty_cases
    { connect := .ok (), listTables := .ok [], queryTable := fun _ => .ok ([], []) }
    { connect := .ok (), listTables := .ok ["items"], queryTable := fun _ => .ok (["id", "name"], []) }
    "items" ["id", "name"] rfl rfl rfl rfl rfl

/-- C7: the header route returns `null` for the `user_agent` field when the
`User-Agent` header is absent and the exact string value when it is present,
and likewise the cookie route for the `session_token` cookie. -/
theorem header_cookie_echo :
    get_item none = .obj [("user_agent", .null)] ∧
    (∀ s : String, get_item (some s) = .obj [("user_agent", .str s)]) ∧
    read_items none = .obj [("session_token", .null)] ∧
    (∀ s : String, read_items (some s) = .obj [("session_token", .str s)]) :=
  ⟨rfl, fun _ => rfl, rfl, fun _ => rfl⟩

/-- C8: in `make_request`, a transport-level failure (`URLError`) is reported
as a reason line with no status code and returns `(None, None)`, while an
HTTP-level error status (`HTTPError`) is caught separately, its status and
body printed, and returns `(code, None)` — so `test_create_item` treats the
call as unsuccessful for branching, whatever the code. -/
theorem make_request_error_paths :
    (∀ r : String,
      make_request (.urlError r) = { printed := [.errorLine r], status := none, data := none }) ∧
    (∀ (c : ℕ) (b : String),
      make_request (.httpError c b) =
        { printed := [.statusLine c, .responseLine (.str b)], status := some c, data := none } ∧
      test_create_item (.httpError c b) = .ok none) :=
  ⟨fun _ => rfl, fun c b => ⟨rfl, test_create_item_of_httpError c b⟩⟩

/-- C9: the query route places no lower bound on `limit`: with a present
`data_type`, a non-negative `skip` and any `limit ≤ 100` — negative values
included — the response is a 200 echoing the three values unchanged. -/
theorem query_limit_no_lower_bound (d : String) (s l : ℤ) (hs : 0 ≤ s) (hl : l ≤ 100) :
    get_api_data ⟨some d, some s, some l⟩ = .ok ⟨d, s, l⟩ ∧
    statusOf (get_api_data ⟨some d, some s, some l⟩) = 200 := by
  have h : get_api_data ⟨some d, some s, some l⟩ = .ok ⟨d, s, l⟩ := by
    simp [get_api_data, vDataType, vSkip, vLimit, hs, hl]
  exact ⟨h, by rw [h]; rfl⟩

/-- Witness for C9: a concrete request with the negative limit `-5` gets a
200 echoing `-5`. -/
theorem query_limit_no_lower_bound_witness :
    get_api_data ⟨some "files", some 0, some (-5)⟩ = .ok ⟨"files", 0, -5⟩ ∧
    statusOf (get_api_data ⟨some "files", some 0, some (-5)⟩) = 200 :=
  query_limit_no_lower_bound "files" 0 (-5) (by norm_num) (by norm_num)

/-- C2: a request to the query route with a negative `skip`, or a `limit`
over 100, or a missing `data_type`, gets the framework's 422 validation
response — a 4xx, never a 200 — whose error list names the violated
constraint of the offending parameter. -/
theorem query_constraint_violations (req : QueryRequest) :
    ((∃ n : ℤ, req.skip = some n ∧ n < 0) →
      statusOf (get_api_data req) = 422 ∧
      ∃ errs, get_api_data req = .validationError errs ∧
        FieldError.greaterEqual "skip" 0 ∈ errs) ∧
    ((∃ m : ℤ, req.limit = some m ∧ 100 < m) →
      statusOf (get_api_data req) = 422 ∧
      ∃ errs, get_api_data req = .validationError errs ∧
        FieldError.lessEqual "limit" 100 ∈ errs) ∧
    (req.data_type = none →
      statusOf (get_api_data req) = 422 ∧
      ∃ errs, get_api_data req = .validationError errs ∧
        FieldError.missing "data_type" ∈ errs) := by
  obtain ⟨dt, sk, lim⟩ := req
  refine ⟨?_, ?_, ?_⟩
  · rintro ⟨n, hsk, hneg⟩
    obtain rfl : sk = some n := hsk
    have hns : ¬ (0:ℤ) ≤ n := not_le.mpr hneg
    rcases dt with _ | d <;> rcases lim with _ | m
    · simp [get_api_data, vDataType, vSkip, vLimit, errsOf, statusOf, hns]
    · by_cases hm : m ≤ 100 <;>
        simp [get_api_data, vDataType, vSkip, vLimit, errsOf, statusOf, hns, hm]
    · simp [get_api_data, vDataType, vSkip, vLimit, errsOf, statusOf, hns]
    · by_cases hm : m ≤ 100 <;>
        simp [get_api_data, vDataType, vSkip, vLimit, errsOf, statusOf, hns, hm]
  · rintro ⟨m, hlim, hbig⟩
    obtain rfl : lim = some m := hlim
    have hms : ¬ m ≤ 100 := not_le.mpr hbig
    rcases dt with _ | d <;> rcases sk with _ | n
    · simp [get_api_data, vDataType, vSkip, vLimit, errsOf, statusOf, hms]
    · by_cases hn : 0 ≤ n <;>
        simp [get_api_data, vDataType, vSkip, vLimit, errsOf, statusOf, hms, hn]
    · simp [get_api_data, vDataType, vSkip, vLimit, errsOf, statusOf, hms]
    · by_cases hn : 0 ≤ n <;>
        simp [get_api_data, vDataType, vSkip, vLimit, errsOf, statusOf, hms, hn]
  · intro hdt
    obtain rfl : dt = none := hdt
    rcases sk with _ | n <;> rcases lim with _ | m
    · simp [get_api_data, vDataType, vSkip, vLimit, errsOf, statusOf]
    · by_cases hm : m ≤ 100 <;>
        simp [get_api_data, vDataType, vSkip, vLimit, errsOf, statusOf, hm]
    · by_cases hn : 0 ≤ n <;>
        simp [get_api_data, vDataType, vSkip, vLimit, errsOf, statusOf, hn]
    · by_cases hn : 0 ≤ n <;> by_cases hm : m ≤ 100 <;>
        simp [get_api_data, vDataType, vSkip, vLimit, errsOf, statusOf, hn, hm]

/-- Witness for C2: the request with `data_type` absent, `skip = -1` and
`limit = 101` violates all three constraints at once. -/
theorem query_constraint_violations_witness :
    (statusOf (get_api_data ⟨none, some (-1), some 101⟩) = 422 ∧
      ∃ errs, get_api_data ⟨none, some (-1), some 101⟩ = .validationError errs ∧
        FieldError.greaterEqual "skip" 0 ∈ errs) ∧
    (statusOf (get_api_data ⟨none, some (-1), some 101⟩) = 422 ∧
      ∃ errs, get_api_data ⟨none, some (-1), some 101⟩ = .validationError errs ∧
        FieldError.lessEqual "limit" 100 ∈ errs) ∧
    (statusOf (get_api_data ⟨none, some (-1), some 101⟩) = 422 ∧
      ∃ errs, get_api_data ⟨none, some (-1), some 101⟩ = .validationError errs ∧
        FieldError.missing "data_type" ∈ errs) :=
  ⟨(query_constraint_violations ⟨none, some (-1), some 101⟩).1 ⟨-1, rfl, by norm_num⟩,
   (query_constraint_violations ⟨none, some (-1), some 101⟩).2.1 ⟨101, rfl, by norm_num⟩,
   (query_constraint_violations ⟨none, some (-1), some 101⟩).2.2 rfl⟩

/-- C3: a body for the body route whose `item` object is missing `name`, or
missing `price`, or has `price ≤ 0`, gets the 422 validation response — a
4xx — with the offending field named in the error list. -/
theorem body_constraint_violations (raw : RawItem) :
    (raw.name = none →
      statusOf (create_item raw) = 422 ∧
      ∃ errs, create_item raw = .validationError errs ∧
        FieldError.missing "item.name" ∈ errs) ∧
    (raw.price = none →
      statusOf (create_item raw) = 422 ∧
      ∃ errs, create_item raw = .validationError errs ∧
        FieldError.missing "item.price" ∈ errs) ∧
    ((∃ p : ℚ, raw.price = some p ∧ p ≤ 0) →
      statusOf (create_item raw) = 422 ∧
      ∃ errs, create_item raw = .validationError errs ∧
        FieldError.greaterThan "item.price" 0 ∈ errs) := by
  obtain ⟨nm, pr, br⟩ := raw
  refine ⟨?_, ?_, ?_⟩
  · intro hnm
    obtain rfl : nm = none := hnm
    rcases pr with _ | p
    · simp [create_item, validateItem, errsOf, statusOf]
    · by_cases hp : 0 < p <;> simp [create_item, validateItem, errsOf, statusOf, hp]
  · intro hpr
    obtain rfl : pr = none := hpr
    rcases nm with _ | n <;> simp [create_item, validateItem, errsOf, statusOf]
  · rintro ⟨p, hpr, hple⟩
    obtain rfl : pr = some p := hpr
    have hp : ¬ 0 < p := not_lt.mpr hple
    rcases nm with _ | n <;> simp [create_item, validateItem, errsOf, statusOf, hp]

/-- Witness for C3: the body with `name` absent and `price = 0` fails both
ways; the body with `name` present and `price` absent fails the third way. -/
theorem body_constraint_violations_witness :
    (statusOf (create_item ⟨none, some 0, none⟩) = 422 ∧
      ∃ errs, create_item ⟨none, some 0, none⟩ = .validationError errs ∧
        FieldError.missing "item.name" ∈ errs) ∧
    (statusOf (create_item ⟨some "Foo", none, none⟩) = 422 ∧
      ∃ errs, create_item ⟨some "Foo", none, none⟩ = .validationError errs ∧
        FieldError.missing "item.price" ∈ errs) ∧
    (statusOf (create_item ⟨none, some 0, none⟩) = 422 ∧
      ∃ errs, create_item ⟨none, some 0, none⟩ = .validationError errs ∧
        FieldError.greaterThan "item.price" 0 ∈ errs) :=
  ⟨(body_constraint_violations ⟨none, some 0, none⟩).1 rfl,
   (body_constraint_violations ⟨some "Foo", none, none⟩).2.1 rfl,
   (body_constraint_violations ⟨none, some 0, none⟩).2.2 ⟨0, rfl, le_refl 0⟩⟩

/-- C5: on valid input, each route echoes its structurally-decoded input:
the path route's response text is the format string containing `name` and
`age` verbatim, the query route echoes `data_type`, `skip` and `limit`
exactly, and the body route echoes the parsed item object. -/
theorem routes_echo_valid_input
    (name age : String) (hname : 1 ≤ name.length)
    (d : String) (s l : ℤ) (hs : 0 ≤ s) (hl : l ≤ 100)
    (n : String) (p : ℚ) (br : Option String) (hp : 0 < p) :
    (get_name name age = .ok ⟨"Name is : " ++ name ++ ", age is: " ++ age⟩ ∧
      strContains ("Name is : " ++ name ++ ", age is: " ++ age) name ∧
      strContains ("Name is : " ++ name ++ ", age is: " ++ age) age) ∧
    get_api_data ⟨some d, some s, some l⟩ = .ok ⟨d, s, l⟩ ∧
    create_item ⟨some n, some p, br⟩ = .ok ⟨n, p, br⟩ := by
  refine ⟨⟨?_, ?_, ?_⟩, ?_, ?_⟩
  · simp [get_name, hname]
  · exact ⟨"Name is : ".data, (", age is: " ++ age).data,
      by simp [String.data_append, List.append_assoc]⟩
  · exact ⟨("Name is : " ++ name ++ ", age is: ").data, [],
      by simp [String.data_append, List.append_assoc]⟩
  · simp [get_api_data, vDataType, vSkip, vLimit, hs, hl]
  · simp [create_item, validateItem, hp]

/-- Witness for C5: the concrete inputs of the spec's example — path
`John`/`30`, query `files`/`2`/`10`, body `Foo`/`35.5`/`BarBrand`. -/
theorem routes_echo_valid_input_witness :
    (get_name "John" "30" = .ok ⟨"Name is : " ++ "John" ++ ", age is: " ++ "30"⟩ ∧
      strContains ("Name is : " ++ "John" ++ ", age is: " ++ "30") "John" ∧
      strContains ("Name is : " ++ "John" ++ ", age is: " ++ "30") "30") ∧
    get_api_data ⟨some "files", some 2, some 10⟩ = .ok ⟨"files", 2, 10⟩ ∧
    create_item ⟨some "Foo", some (71/2), some "BarBrand"⟩ = .ok ⟨"Foo", 71/2, some "BarBrand"⟩ :=
  routes_echo_valid_input "John" "30" (by decide) "files" 2 10 (by norm_num) (by norm_num)
    "Foo" (71/2) (some "BarBrand") (by norm_num)

theorem pyTruthy_obj_of_dictGet {fs : List (String × JValue)} {k : String} {v : JValue}
    (h : dictGet fs k = some v) : pyTruthy (.obj fs) = true := by
  have hne := dictGet_ne_nil h
  cases fs with
  | nil => exact absurd rfl hne
  | cons a l => rfl

theorem pyGetId_of_not_obj {d : JValue} (h : ∀ fs, d ≠ .obj fs) :
    pyGetId d = .error "AttributeError" := by
  cases d <;> first | rfl | exact absurd rfl (h _)

theorem verifyMain_of_ok_none {resp : HttpOutcome}
    (h : test_create_item resp = .ok none) :
    verifyMain resp = { trace := [.create, .failNotice], err := none } := by
  simp [verifyMain, h]

theorem verifyMain_of_ok_some {resp : HttpOutcome} {v : JValue}
    (h : test_create_item resp = .ok (some v)) :
    verifyMain resp =
      if pyTruthy v then { trace := fullTrace v, err := none }
      else { trace := [.create, .failNotice], err := none } := by
  simp [verifyMain, h]

theorem verifyMain_of_error {resp : HttpOutcome} {e : String}
    (h : test_create_item resp = .error e) :
    verifyMain resp = { trace := [.create], err := some e } := by
  simp [verifyMain, h]

theorem createYieldsId_unique {resp : HttpOutcome} {v w : JValue}
    (hv : createYieldsId resp v) (hw : createYieldsId resp w) : v = w := by
  obtain ⟨raw, parsed, fs, rfl, hobj, hget, htv⟩ := hv
  obtain ⟨raw2, parsed2, fs2, heq, hobj2, hget2, htw⟩ := hw
  injection heq with e1 e2 e3
  subst e2
  subst e3
  rw [hobj] at hobj2
  injection hobj2 with efs
  subst efs
  rw [hget] at hget2
  exact Option.some.inj hget2

/-- Complete case analysis of one run of the `__main__` block as a function
of the CREATE outcome: either the script prints the failure notice after
CREATE, or it performs the full step sequence for the unique truthy id the
CREATE body carried, or it dies on the `AttributeError` from calling
`.get` on a truthy non-dict body. -/
theorem verifyMain_cases (resp : HttpOutcome) :
    (verifyMain resp = { trace := [.create, .failNotice], err := none } ∧
      (∀ v, ¬ createYieldsId resp v) ∧ ¬ createCrashes resp) ∨
    (∃ v, verifyMain resp = { trace := fullTrace v, err := none } ∧
      createYieldsId resp v ∧ ¬ createCrashes resp) ∨
    (verifyMain resp = { trace := [.create], err := some "AttributeError" } ∧
      createCrashes resp ∧ ∀ v, ¬ createYieldsId resp v) := by
  rcases resp with ⟨st, raw, parsed⟩ | ⟨c, b⟩ | r
  · by_cases hst : st = 200
    · subst hst
      have htc := test_create_item_of_success 200 raw parsed rfl
      by_cases htr : pyTruthy (dataOf raw parsed)
      · by_cases hobj : ∃ fs, dataOf raw parsed = .obj fs
        · obtain ⟨fs, hfs⟩ := hobj
          rcases hid : dictGet fs "id" with _ | v
          · left
            have h1 : test_create_item (.success 200 raw parsed) = .ok none := by
              rw [htc, if_pos htr, hfs]
              simp [pyGetId, hid]
            refine ⟨verifyMain_of_ok_none h1, ?_, ?_⟩
            · rintro v ⟨raw2, parsed2, fs2, heq, hobj2, hget2, htv⟩
              injection heq with e1 e2 e3
              subst e2
              subst e3
              rw [hfs] at hobj2
              injection hobj2 with efs
              subst efs
              rw [hid] at hget2
              exact Option.noConfusion hget2
            · rintro ⟨raw2, parsed2, heq, htr2, hno⟩
              injection heq with e1 e2 e3
              subst e2
              subst e3
              exact hno fs hfs
          · have h1 : test_create_item (.success 200 raw parsed) = .ok (some v) := by
              rw [htc, if_pos htr, hfs]
              simp [pyGetId, hid]
            by_cases hpv : pyTruthy v
            · right; left
              refine ⟨v, ?_, ⟨raw, parsed, fs, rfl, hfs, hid, hpv⟩, ?_⟩
              · rw [verifyMain_of_ok_some h1, if_pos hpv]
              · rintro ⟨raw2, parsed2, heq, htr2, hno⟩
                injection heq with e1 e2 e3
                subst e2
                subst e3
                exact hno fs hfs
            · left
              refine ⟨?_, ?_, ?_⟩
              · rw [verifyMain_of_ok_some h1, if_neg hpv]
              · rintro w ⟨raw2, parsed2, fs2, heq, hobj2, hget2, htw⟩
                injection heq with e1 e2 e3
                subst e2
                subst e3
                rw [hfs] at hobj2
                injection hobj2 with efs
                subst efs
                rw [hid] at hget2
                injection hget2 with ev
                subst ev
                exact hpv htw
              · rintro ⟨raw2, parsed2, heq, htr2, hno⟩
                injection heq with e1 e2 e3
                subst e2
                subst e3
                exact hno fs hfs
        · right; right
          push_neg at hobj
          have h1 : test_create_item (.success 200 raw parsed) = .error "AttributeError" := by
            rw [htc, if_pos htr, pyGetId_of_not_obj hobj]
          refine ⟨verifyMain_of_error h1, ⟨raw, parsed, rfl, htr, hobj⟩, ?_⟩
          rintro v ⟨raw2, parsed2, fs2, heq, hobj2, hget2, htv⟩
          injection heq with e1 e2 e3
          subst e2
          subst e3
          exact hobj fs2 hobj2
      · left
        have h1 : test_create_item (.success 200 raw parsed) = .ok none := by
          rw [htc, if_neg htr]
        refine ⟨verifyMain_of_ok_none h1, ?_, ?_⟩
        · rintro v ⟨raw2, parsed2, fs2, heq, hobj2, hget2, htv⟩
          injection heq with e1 e2 e3
          subst e2
          subst e3
          have hT := pyTruthy_obj_of_dictGet hget2
          rw [← hobj2] at hT
          exact htr hT
        · rintro ⟨raw2, parsed2, heq, htr2, hno⟩
          injection heq with e1 e2 e3
          subst e2
          subst e3
          exact htr htr2
    · left
      refine ⟨verifyMain_of_ok_none (test_create_item_of_success_ne st raw parsed hst), ?_, ?_⟩
      · rintro v ⟨raw2, parsed2, fs2, heq, hobj2, hget2, htv⟩
        injection heq with e1 e2 e3
        exact hst e1
      · rintro ⟨raw2, parsed2, heq, htr2, hno⟩
        injection heq with e1 e2 e3
        exact hst e1
  · left
    refine ⟨verifyMain_of_ok_none (test_create_item_of_httpError c b), ?_, ?_⟩
    · rintro v ⟨raw2, parsed2, fs2, heq, hobj2, hget2, htv⟩
      exact HttpOutcome.noConfusion heq
    · rintro ⟨raw2, parsed2, heq, htr2, hno⟩
      exact HttpOutcome.noConfusion heq
  · left
    refine ⟨verifyMain_of_ok_none (test_create_item_of_urlError r), ?_, ?_⟩
    · rintro v ⟨raw2, parsed2, fs2, heq, hobj2, hget2, htv⟩
      exact HttpOutcome.noConfusion heq
    · rintro ⟨raw2, parsed2, heq, htr2, hno⟩
      exact HttpOutcome.noConfusion heq

/-- C4 (amended): the script issues CREATE first; it performs READ-ALL,
READ-ONE(id), UPDATE, PATCH, DELETE(id), READ-ALL in exactly that order
exactly when CREATE returned status 200 with a JSON-object body carrying a
truthy `id`; if CREATE fails to yield an id other than by returning a 200
with a truthy non-object body, the remaining steps are skipped and the
failure notice is printed; on a 200 with a truthy non-object body the
script instead aborts with an uncaught `AttributeError` right after CREATE,
printing no failure notice. -/
theorem verify_script_protocol (resp : HttpOutcome) :
    (verifyMain resp).trace.head? = some .create ∧
    (∀ v : JValue, (verifyMain resp).trace = fullTrace v ↔ createYieldsId resp v) ∧
    ((∀ v, ¬ createYieldsId resp v) → ¬ createCrashes resp →
      verifyMain resp = { trace := [.create, .failNotice], err := none }) ∧
    (createCrashes resp →
      verifyMain resp = { trace := [.create], err := some "AttributeError" }) := by
  rcases verifyMain_cases resp with ⟨hvm, hny, hnc⟩ | ⟨v, hvm, hy, hnc⟩ | ⟨hvm, hc, hny⟩
  · refine ⟨by rw [hvm]; rfl, ?_, fun _ _ => hvm, fun h => absurd h hnc⟩
    intro w
    constructor
    · intro h
      rw [hvm] at h
      simp [fullTrace] at h
    · intro h
      exact absurd h (hny w)
  · refine ⟨by rw [hvm]; rfl, ?_, ?_, fun h => absurd h hnc⟩
    · intro w
      constructor
      · intro h
        rw [hvm] at h
        have hvw : v = w := by
          have h2 := congrArg (fun l => l[2]?) h
          simpa [fullTrace] using h2
        exact hvw ▸ hy
      · intro h
        rw [hvm, createYieldsId_unique h hy]
    · intro hnone hncr
      exact absurd hy (hnone v)
  · refine ⟨by rw [hvm]; rfl, ?_, ?_, fun _ => hvm⟩
    · intro w
      constructor
      · intro h
        rw [hvm] at h
        simp [fullTrace] at h
      · intro h
        exact absurd h (hny w)
    · intro hnone hncr
      exact absurd hc hncr

/-- Witness for C4: a CREATE response of status 200 whose object body has
the truthy id `7` makes the script run the full step sequence. -/
theorem verify_script_protocol_witness :
    (verifyMain (.success 200 "ok" (some (.obj [("id", .num 7)])))).trace =
      fullTrace (.num 7) :=
  ((verify_script_protocol (.success 200 "ok" (some (.obj [("id", .num 7)])))).2.1
      (.num 7)).mpr
    ⟨"ok", some (.obj [("id", .num 7)]), [("id", .num 7)], rfl, rfl, rfl, by decide⟩

/-- Counterexample to C4 as stated: on a CREATE response of status 200 whose
body is the non-JSON text `hello`, CREATE fails to yield an id, yet the
script does not print the failure notice — `data.get("id")` raises an
uncaught `AttributeError` and the run dies right after the CREATE call. -/
theorem verify_script_protocol_counterexample :
    verifyMain (.success 200 "hello" none) =
      { trace := [.create], err := some "AttributeError" } ∧
    (verifyMain (.success 200 "hello" none)).trace ≠ [Step.create, Step.failNotice] := by
  refine ⟨rfl, ?_⟩
  intro h
  rw [show (verifyMain (.success 200 "hello" none)).trace = [Step.create] from rfl] at h
  simp at h

/-- C10 (amended): the script treats only the exact status 200 as CREATE
success: any success status other than 200 (e.g. 201), or a 200 whose
decoded body is falsy (empty), or a 200 whose body is a JSON object lacking
an `id` key, makes the script print the failure notice and skip every
remaining step; a 200 whose truthy decoded body is not a JSON object
instead crashes the script with an `AttributeError`. -/
theorem create_requires_exact_200 (resp : HttpOutcome) :
    ((∃ st rawBody parsed, resp = .success st rawBody parsed ∧ st ≠ 200) →
      verifyMain resp = { trace := [.create, .failNotice], err := none }) ∧
    ((∃ rawBody parsed, resp = .success 200 rawBody parsed ∧
        pyTruthy (dataOf rawBody parsed) = false) →
      verifyMain resp = { trace := [.create, .failNotice], err := none }) ∧
    ((∃ rawBody parsed fs, resp = .success 200 rawBody parsed ∧
        dataOf rawBody parsed = .obj fs ∧ dictGet fs "id" = none) →
      verifyMain resp = { trace := [.create, .failNotice], err := none }) := by
  refine ⟨?_, ?_, ?_⟩
  · rintro ⟨st, rawBody, parsed, rfl, hst⟩
    exact verifyMain_of_ok_none (test_create_item_of_success_ne st rawBody parsed hst)
  · rintro ⟨rawBody, parsed, rfl, hfalse⟩
    refine verifyMain_of_ok_none ?_
    rw [test_create_item_of_success 200 rawBody parsed rfl, if_neg (by simp [hfalse])]
  · rintro ⟨rawBody, parsed, fs, rfl, hobj, hid⟩
    refine verifyMain_of_ok_none ?_
    rw [test_create_item_of_success 200 rawBody parsed rfl]
    by_cases htr : pyTruthy (dataOf rawBody parsed)
    · rw [if_pos htr, hobj]
      simp [pyGetId, hid]
    · rw [if_neg htr]

/-- Witness for C10: a CREATE response with the success status 201 and a
perfectly id-bearing body still takes the failure branch. -/
theorem create_requires_exact_200_witness :
    verifyMain (.success 201 "created" (some (.obj [("id", .num 1)]))) =
      { trace := [.create, .failNotice], err := none } :=
  (create_requires_exact_200 (.success 201 "created" (some (.obj [("id", .num 1)])))).1
    ⟨201, "created", some (.obj [("id", .num 1)]), rfl, by norm_num⟩

/-- Counterexample to C10 as stated: a CREATE response of status 200 whose
body decodes to the JSON array `[1]` — a decoded body lacking an `id` key —
does not make the script print the failure notice: it raises an uncaught
`AttributeError` instead. -/
theorem create_requires_exact_200_counterexample :
    verifyMain (.success 200 "[1]" (some (.arr [.num 1]))) =
      { trace := [.create], err := some "AttributeError" } ∧
    Step.failNotice ∉ (verifyMain (.success 200 "[1]" (some (.arr [.num 1])))).trace := by
  refine ⟨rfl, ?_⟩
  rw [show (verifyMain (.success 200 "[1]" (some (.arr [.num 1])))).trace = [Step.create] from rfl]
  simp
